import Mathlib

/-!
Verification of the flaskr authentication and database-connection core.

The definitions below are a shallow embedding of `flaskr/db.py` and
`flaskr/auth.py`: each Python function is translated statement by statement
into an executable Lean function over explicit state.  Flask ambient objects
are made explicit parameters: `g.db` becomes the `gdb` field of `ReqState`,
`session` becomes an `Option Nat` (the stored `user_id`, `none` when absent),
`request` becomes the `Request` structure.  A Python exception that escapes a
function is an `Except.error` carrying the exception class and message.
-/

/-- Python exception classes raised by the code under study, with the message
text observed from CPython and sqlite3. -/
inductive PyErr where
  | attributeError (msg : String)
  | operationalError (msg : String)
  | integrityError (msg : String)
  | programmingError (msg : String)
  deriving DecidableEq, Repr

/-- A row of the `user` table: `id`, `username`, `password` (the stored hash). -/
structure User where
  id : Nat
  username : String
  password : String
  deriving DecidableEq, Repr

/-- The `user` table, as stored in the database. -/
abbrev Store := List User

/-- The Flask `session` dict restricted to the one key the code uses:
`session.get` of the user-id key, `none` when absent (Anonymous). -/
abbrev Session := Option Nat

/-- An incoming HTTP request: its method and the two form fields read by the
views (`request.form` of `username` and of `password`). -/
structure Request where
  method : String
  username : String
  password : String
  deriving DecidableEq, Repr

/-- The value a view function returns to Flask: a redirect to a path, a
rendered template (with the messages flashed during the request), or Python
`None` when the function body falls off the end without a return statement. -/
inductive Response where
  | redirect (path : String)
  | page (template : String) (flashes : List String)
  | pyNone
  deriving DecidableEq, Repr

/-- Modelled from the spec: URL construction for endpoint names.  The
`auth.login` path follows the blueprint prefix `/auth` and route `/login`
in `auth.py`; the landing endpoint (`index`, path `/`) is the application
view the spec calls the landing endpoint, whose code is not under `src/`. -/
def url_for : String → String
  | "index" => "/"
  | "auth.login" => "/auth/login"
  | e => "/" ++ e

/-- The werkzeug password hash, modelled as an injective tagging of the
plaintext; `check_password_hash` below is its checking counterpart. -/
def generate_password_hash (password : String) : String :=
  "pbkdf2-sha256$" ++ password

/-- The werkzeug hash check: the stored hash matches exactly the hash of the
submitted plaintext. -/
def check_password_hash (hash password : String) : Bool :=
  hash = generate_password_hash password

/-! ## `flaskr/db.py` — the Connection Provider -/

/-- The per-request connection state: the `db` key of the Flask `g` object
(the handle id when set), plus instrumentation counting how many underlying
`sqlite3.connect` calls and how many `close()` calls the request performed. -/
structure ReqState where
  gdb : Option Nat
  created : Nat
  closed : Nat
  deriving DecidableEq, Repr

/-- The state of `g` at the start of a request: no `db` key, nothing created
or closed yet. -/
def freshReq : ReqState := ⟨none, 0, 0⟩

/-- Embedding of `get_db`.  The source checks `if 'db' not in g`, and inside
that branch connects, stores the handle in `g.db` and returns it.  The
`return g.db` statement is indented inside the `if` branch, so when the key
is already present the function body ends without a return statement and
Python returns `None`. -/
def get_db (s : ReqState) : ReqState × Option Nat :=
  if s.gdb = none then
    let h := s.created
    ({ s with gdb := some h, created := s.created + 1 }, some h)
  else
    (s, none)

/-- Embedding of `close_db`: `db = g.pop('db', None)`, then
`if db is not None: db.close()`. -/
def close_db (s : ReqState) : ReqState :=
  let db := s.gdb
  let s' := { s with gdb := none }
  match db with
  | some _ => { s' with closed := s'.closed + 1 }
  | none => s'

/-- A request that performs `n` data-access calls: `get_db` applied `n`
times, threading the request state. -/
def runAcquires : Nat → ReqState → ReqState
  | 0, s => s
  | n + 1, s => runAcquires n (get_db s).1

/-! ## `flaskr/auth.py` — the Auth Flow Controller -/

/-- Number of rows of the store holding the given username. -/
def rowCount (store : Store) (username : String) : Nat :=
  (store.filter (fun r => r.username = username)).length

/-- A fresh id for an inserted row, as sqlite assigns to an INTEGER PRIMARY
KEY: one more than the largest id present. -/
def freshId (store : Store) : Nat :=
  store.foldl (fun m r => max m r.id) 0 + 1

/-- The SQL string of the INSERT statement in `register`, verbatim from the
source.  Note the column list and the values list lack their commas. -/
def registerInsertSQL : String :=
  "INSERT INTO user (username password) VALUES (? ?)"

/-- Scanner for the fragment of the sqlite grammar this statement
exercises: inside a parenthesised list of an INSERT the entries must be
separated by commas, so a space that does not follow a comma separates two
tokens without a separator and is a syntax error.  The first argument
records whether the scan is currently inside parentheses. -/
def sqlListsOk : Bool → List Char → Bool
  | _, [] => true
  | _, '(' :: rest => sqlListsOk true rest
  | _, ')' :: rest => sqlListsOk false rest
  | true, ',' :: ' ' :: rest => sqlListsOk true rest
  | true, ' ' :: _ => false
  | inside, _ :: rest => sqlListsOk inside rest

/-- An INSERT statement parses iff its parenthesised lists are well formed. -/
def insertSQLWellFormed (sql : String) : Bool :=
  sqlListsOk false sql.toList

/-- Embedding of `db.execute(sql, (username, hash))` followed by
`db.commit()` for the INSERT of `register`: sqlite first parses the SQL and
raises `OperationalError` on a syntax error; a parsed insert that violates
the UNIQUE constraint on `username` raises `IntegrityError`; otherwise the
row is inserted and committed. -/
def db_execute_insert (sql : String) (store : Store) (username hash : String) :
    Except PyErr Store :=
  if insertSQLWellFormed sql = false then
    .error (.operationalError "near valueless token: syntax error")
  else if (store.find? (fun r => r.username = username)).isSome then
    .error (.integrityError "UNIQUE constraint failed: user.username")
  else
    .ok (store ++ [⟨freshId store, username, hash⟩])

/-- Embedding of the expression `(username).fetchone()` in `login`:
`username` is a `str`, which has no `fetchone` method, so evaluating the
argument of `db.execute` raises `AttributeError` before the query runs, and
no value is ever produced. -/
def username_fetchone (username : String) : Except PyErr Empty :=
  .error (.attributeError "str object has no attribute fetchone")

/-- Embedding of the expression `get_db().execute(sql, (user_id))` in
`load_logged_in_user`: `(user_id)` is a plain `int`, not a one-element
tuple, and sqlite3 rejects a non-sequence parameters argument with
`ProgrammingError`, so no row is ever produced. -/
def execute_params_int (user_id : Nat) : Except PyErr Empty :=
  .error (.programmingError "parameters are of unsupported type")

/-- Embedding of the `register` view.  On POST it reads the form fields,
validates them, and if no validation error runs the INSERT: an
`IntegrityError` is caught and flashed as the duplicate message, any other
exception propagates out of the view; on success it returns a redirect to
the login endpoint.  On GET the body of the `if request.method` branch is
skipped, the nested `login` and `load_logged_in_user` definitions execute,
and the function falls off the end, returning Python `None`.  The result
pairs the database state left behind with the view outcome. -/
def register (store : Store) (req : Request) : Store × Except PyErr Response :=
  if req.method = "POST" then
    let username := req.username
    let password := req.password
    let error0 : Option String :=
      if username = "" then some "Username is required."
      else if password = "" then some "Password is required."
      else none
    match error0 with
    | none =>
      match db_execute_insert registerInsertSQL store username (generate_password_hash password) with
      | .error (.integrityError _) =>
          (store, .ok (.page "auth/register.html"
            ["User " ++ username ++ " is already registered. Please login instead."]))
      | .error e => (store, .error e)
      | .ok store' => (store', .ok (.redirect (url_for "auth.login")))
    | some err => (store, .ok (.page "auth/register.html" [err]))
  else
    (store, .ok .pyNone)

/-- Embedding of the `login` view (defined nested inside `register` in the
source).  On POST it reads the form fields, computes the validation error,
then evaluates `db.execute('SELECT ...', (username).fetchone())`, whose
argument raises `AttributeError` for every string, so the view never reaches
the user check, the session write, or the fall-through render; the exception
propagates with the session unchanged.  On GET it renders the login
template. -/
def login (store : Store) (sess : Session) (req : Request) :
    Session × Except PyErr Response :=
  if req.method = "POST" then
    let username := req.username
    let _error0 : Option String :=
      if username = "" then some "Please enter a valid username."
      else if req.password = "" then some "Please enter a password."
      else none
    match username_fetchone username with
    | .error e => (sess, .error e)
    | .ok v => v.elim
  else
    (sess, .ok (.page "/auth/login.html" []))

/-- Embedding of `load_logged_in_user` (also nested inside `register` in the
source): read `user_id` from the session; when absent set `g.user` to
`None`; otherwise run the id query, whose parameters argument `(user_id)`
is an `int` and makes sqlite3 raise, so the handler never sets `g.user` and
the exception fails the request. -/
def load_logged_in_user (store : Store) (sess : Session) :
    Except PyErr (Option User) :=
  match sess with
  | none => .ok none
  | some user_id =>
    match execute_params_int user_id with
    | .error e => .error e
    | .ok v => v.elim

/-- Embedding of the `logout` view: `session.clear()` then a returned
redirect to `url_for('index')`. -/
def logout (sess : Session) : Session × Response :=
  (none, .redirect (url_for "index"))

/-- Keyword arguments a wrapped view receives, as an association list. -/
abbrev Kwargs := List (String × String)

/-- Embedding of the `login_required` decorator: the wrapped view redirects
to the login endpoint when `g.user` is `None`, and otherwise calls the
original view on the unchanged keyword arguments and returns its result. -/
def login_required (view : Kwargs → Response) (g_user : Option User)
    (kwargs : Kwargs) : Response :=
  if g_user = none then .redirect (url_for "auth.login")
  else view kwargs

/-- A registered user used as concrete test data. -/
def alice : User := ⟨1, "alice", generate_password_hash "secret1"⟩

/-! ## Theorems -/

/-- Claim C1: the spec says `get_db` returns the request's handle, creating
it on first call and returning the cached handle on later calls.  The code
creates and returns the handle on the first call, but the `return g.db`
statement is inside the creation branch, so a second call in the same
request — with the handle still cached in `g` — returns Python `None`. -/
theorem get_db_second_call_returns_none :
    (get_db freshReq).2 = some 0
    ∧ (get_db (get_db freshReq).1).1.gdb = some 0
    ∧ (get_db (get_db freshReq).1).2 = none := by decide

/-- Claim C2: the spec says Login with a stored user's correct credentials
binds `session.user_id` and redirects to `/`.  The code raises
`AttributeError` while evaluating `(username).fetchone()` on every POST, so
for alice with her correct password the session stays unchanged and the
request fails instead of redirecting. -/
theorem login_valid_credentials_raises :
    login [alice] none ⟨"POST", "alice", "secret1"⟩
      = (none, .error (.attributeError "str object has no attribute fetchone")) := rfl

/-- Claim C3: the spec says a duplicate Register surfaces the already
registered message and leaves the row count at 1.  The INSERT SQL in the
code is malformed (missing commas), so sqlite raises `OperationalError`
before any uniqueness check; the `except` clause catches only
`IntegrityError`, the exception escapes the view, and no message is
flashed.  The row count does stay at 1 because the insert never runs. -/
theorem register_duplicate_raises_syntax_error :
    register [alice] ⟨"POST", "alice", "other"⟩
      = ([alice], .error (.operationalError "near valueless token: syntax error"))
    ∧ rowCount (register [alice] ⟨"POST", "alice", "other"⟩).1 "alice" = 1 := ⟨rfl, rfl⟩

/-- Claim C4: the spec says hydration with a stale `user_id` sets the
current user to none and never fails the request.  The code passes
`(user_id)` — a plain `int`, not a tuple — as the query parameters, so
sqlite3 raises `ProgrammingError` for every present `user_id` and the
request fails; only the absent-id case sets `g.user = None`. -/
theorem load_logged_in_user_raises_on_any_user_id :
    load_logged_in_user [alice] (some 99)
      = .error (.programmingError "parameters are of unsupported type")
    ∧ load_logged_in_user [alice] none = .ok none := ⟨rfl, rfl⟩

/-- Claim C5: the spec says a wrong password yields the Incorrect password
message with the session unchanged.  The code raises `AttributeError` at
the `(username).fetchone()` expression before the password check is
reached, so the session is indeed unchanged but no message is surfaced: the
request fails. -/
theorem login_wrong_password_raises :
    login [alice] (some 1) ⟨"POST", "alice", "wrongpw"⟩
      = (some 1, .error (.attributeError "str object has no attribute fetchone")) := rfl

/-- Claim C6: Logout clears the session unconditionally and redirects to
the landing endpoint; from any session state the result is Anonymous, the
response is a redirect to `/`, and a second Logout yields the same session
state as the first. -/
theorem logout_idempotent (sess : Session) :
    (logout sess).1 = none
    ∧ (logout sess).2 = Response.redirect "/"
    ∧ logout (logout sess).1 = logout sess := ⟨rfl, rfl, rfl⟩

/-- Witness for C6 at the concrete authenticated session `some 7`. -/
theorem logout_idempotent_witness :
    (logout (some 7)).1 = none
    ∧ (logout (some 7)).2 = Response.redirect "/"
    ∧ logout (logout (some 7)).1 = logout (some 7) := logout_idempotent (some 7)

/-- Any number of further `get_db` calls leaves a state whose `db` key is
already set unchanged: the creation branch is not taken. -/
theorem runAcquires_stable (n : Nat) (h c cl : Nat) :
    runAcquires n ⟨some h, c, cl⟩ = ⟨some h, c, cl⟩ := by
  induction n with
  | zero => rfl
  | succ n ih => simpa [runAcquires, get_db] using ih

/-- Claim C7: over a request that makes `n` data-access calls and then
releases, at most one connection is created, nothing is closed before
request end, `close_db` closes exactly as many handles as were created
(one when one exists, zero when none — the no-op case), it removes the
handle, and a second `close_db` changes nothing more. -/
theorem connection_lifecycle_invariant (n : Nat) :
    (runAcquires n freshReq).created ≤ 1
    ∧ (runAcquires n freshReq).closed = 0
    ∧ (close_db (runAcquires n freshReq)).closed = (runAcquires n freshReq).created
    ∧ (close_db (runAcquires n freshReq)).gdb = none
    ∧ close_db (close_db (runAcquires n freshReq)) = close_db (runAcquires n freshReq)
    ∧ close_db freshReq = freshReq := by
  cases n with
  | zero => exact ⟨by decide, rfl, rfl, rfl, rfl, rfl⟩
  | succ m =>
    have h1 : runAcquires (m + 1) freshReq = ⟨some 0, 1, 0⟩ := by
      have h2 : runAcquires (m + 1) freshReq = runAcquires m (get_db freshReq).1 := rfl
      rw [h2]
      exact runAcquires_stable m 0 1 0
    rw [h1]
    exact ⟨by decide, rfl, rfl, rfl, rfl, rfl⟩

/-- Witness for C7 at a request making three data-access calls. -/
theorem connection_lifecycle_invariant_witness :
    (runAcquires 3 freshReq).created ≤ 1
    ∧ (runAcquires 3 freshReq).closed = 0
    ∧ (close_db (runAcquires 3 freshReq)).closed = (runAcquires 3 freshReq).created
    ∧ (close_db (runAcquires 3 freshReq)).gdb = none
    ∧ close_db (close_db (runAcquires 3 freshReq)) = close_db (runAcquires 3 freshReq)
    ∧ close_db freshReq = freshReq := connection_lifecycle_invariant 3

/-- Claim C8: when the current user is none the wrapped view returns a
redirect to the login endpoint and its result does not depend on the
wrapped view (the view is not invoked); when a user is loaded it returns
exactly the wrapped view applied to the unchanged keyword arguments. -/
theorem login_required_gate (view : Kwargs → Response) (g_user : Option User)
    (kwargs : Kwargs) :
    (g_user = none →
      login_required view g_user kwargs = Response.redirect "/auth/login"
      ∧ ∀ view2 : Kwargs → Response,
          login_required view g_user kwargs = login_required view2 g_user kwargs)
    ∧ (∀ u : User, g_user = some u →
        login_required view g_user kwargs = view kwargs) := by
  constructor
  · intro h
    subst h
    exact ⟨rfl, fun view2 => rfl⟩
  · intro u h
    subst h
    simp [login_required]

/-- A concrete protected view used to witness the gate. -/
def demoView : Kwargs → Response := fun _ => .page "blog/index.html" []

/-- Witness for C8: the gate redirects the anonymous request and passes the
authenticated one through to the demo view. -/
theorem login_required_gate_witness :
    login_required demoView none [] = Response.redirect "/auth/login"
    ∧ login_required demoView (some alice) [] = demoView [] :=
  ⟨((login_required_gate demoView none []).1 rfl).1,
   (login_required_gate demoView (some alice) []).2 alice rfl⟩

/-- Claim C9: the spec says a GET on the register endpoint renders the
registration form.  In the code the `return render_template(...)` statement
is indented inside the POST branch, so a GET request skips it, executes the
nested view definitions, falls off the end of the function and returns
Python `None` — not a rendered page. -/
theorem register_get_returns_pyNone :
    register [alice] ⟨"GET", "", ""⟩ = ([alice], .ok Response.pyNone) := rfl

/-- Counterexample to claim C10: a login POST with an empty username does
not surface the message Incorrect username. — the view raises
`AttributeError` at the `(username).fetchone()` expression and returns no
response at all. -/
theorem login_empty_username_crash_counterexample :
    login [alice] none ⟨"POST", "", "secret1"⟩
      = (none, .error (.attributeError "str object has no attribute fetchone")) := rfl

/-- Amended claim C10: the database-lookup statement is indeed reached even
when the empty-username validation has already recorded an error, but
evaluating its argument raises `AttributeError`, so every empty-username
login POST fails with that exception, the session is unchanged, and neither
the lookup-failure message nor the validation message is surfaced. -/
theorem login_empty_username_raises (store : Store) (sess : Session)
    (password : String) :
    login store sess ⟨"POST", "", password⟩
      = (sess, .error (.attributeError "str object has no attribute fetchone")) := rfl

/-- Witness for the amended C10 at a concrete store, session and password. -/
theorem login_empty_username_raises_witness :
    login [alice] none ⟨"POST", "", "pw"⟩
      = (none, .error (.attributeError "str object has no attribute fetchone")) :=
  login_empty_username_raises [alice] none "pw"
